import Mathlib

/-!
Shallow embedding of the mlops-chi training pipeline (src/train/flow.py and
src/train/create_failure_models.py) together with proofs of its specified
properties.  Pure logic (scenario selection, pytest-output parsing, the
registration decision, the padding arithmetic of the oversized-model
generator) is translated into executable Lean functions; external effects
(subprocess launch, model deserialization, registry calls, file writes)
are modelled by explicit environment parameters and event traces.
-/

namespace Flow

/-- flow.py line 13: the fixed registry model name. -/
def MODEL_NAME : String := "GourmetGramFood11Model"

/-- flow.py lines 52-56: the scenario → model-file mapping of
`load_and_train_model`, as an association list. -/
def scenario_to_model : List (String × String) :=
  [("normal", "food11.pth"),
   ("bad-architecture", "bad_model.pth"),
   ("oversized", "oversized_model.pth")]

/-- flow.py lines 58-63: the selection logic of `load_and_train_model`.
Returns the chosen model path together with a flag recording whether the
unknown-scenario warning was logged.  An unknown scenario is coerced to
"normal" (whose entry is total in the map, hence the `getD`). -/
def select_model_path (scenario : String) : String × Bool :=
  match scenario_to_model.lookup scenario with
  | some p => (p, false)
  | none => ((scenario_to_model.lookup "normal").getD "", true)

/-- The longest run of decimal digits at the front of the text: the greedy
match of a leading `\d+`. -/
def leadingDigits : List Char → List Char
  | [] => []
  | c :: cs => if c.isDigit then c :: leadingDigits cs else []

/-- Decimal value of a digit string, as Python `int` reads it. -/
def digitsToNat (ds : List Char) : Nat :=
  ds.foldl (fun a c => a * 10 + (c.toNat - 48)) 0

/-- Semantics of Python `re.search(r'(\d+) <word>', s).group(1)` for patterns
of the shape digits-then-tail (flow.py lines 102-103, with tail " passed" or
" failed"): scan positions left to right, and at the first position where a
nonempty maximal digit run is immediately followed by the tail, return that
run's value.  (A shortened digit run can never be followed by the tail, whose
first character is a space, so greedy matching of the full run is exact.) -/
def searchNumThen (tail : List Char) : List Char → Option Nat
  | [] => none
  | c :: cs =>
    let ds := leadingDigits (c :: cs)
    if !ds.isEmpty && tail.isPrefixOf ((c :: cs).drop ds.length) then
      some (digitsToNat ds)
    else searchNumThen tail cs

/-- Python's substring test `pat in s` (flow.py line 99). -/
def containsSub (pat : List Char) : List Char → Bool
  | [] => pat.isEmpty
  | c :: cs => pat.isPrefixOf (c :: cs) || containsSub pat cs

/-- Outcome of the `subprocess.run(["pytest", ...])` call (flow.py lines
80-85): either the process ran and produced an exit code and output streams,
or the launch raised an exception (flow.py line 126). -/
inductive LaunchResult
  | ok (returncode : Int) (stdout stderr : List Char)
  | raised

/-- What `evaluate_model` produces: the returned boolean and the metrics
logged to MLflow, as (name, value) pairs in call order. -/
structure EvalResult where
  all_tests_passed : Bool
  metrics : List (String × Nat)
  deriving DecidableEq, Repr

/-- flow.py lines 73-132, `evaluate_model`: run pytest; pass/fail is exit
code zero; counters are extracted from the combined output only when it
contains the substring "passed", each defaulting to 0 when its own pattern
is absent, with total = passed + failed set inside that branch; a launch
exception is caught and coerced to an all-zero failing result. -/
def evaluate_model (r : LaunchResult) : EvalResult :=
  match r with
  | .raised =>
      { all_tests_passed := false
        metrics := [("tests_passed", 0), ("tests_failed", 0), ("tests_total", 0)] }
  | .ok rc stdout stderr =>
      let output_lines := stdout ++ stderr
      let counts :=
        if containsSub ("passed".data) output_lines then
          let tp := (searchNumThen (" passed".data) output_lines).getD 0
          let tf := (searchNumThen (" failed".data) output_lines).getD 0
          (tp, tf, tp + tf)
        else (0, 0, 0)
      { all_tests_passed := decide (rc = 0)
        metrics := [("tests_passed", counts.1),
                    ("tests_failed", counts.2.1),
                    ("tests_total", counts.2.2)] }

/-- Value of a logged metric by name (0 if never logged). -/
def metricValue (r : EvalResult) (name : String) : Nat :=
  (r.metrics.lookup name).getD 0

/-- Calls made against the MLflow registry by the registrar. -/
inductive RegistryEvent
  | registerModel (name : String)
  | setRegisteredModelAlias (name al : String) (version : Nat)
  deriving DecidableEq, Repr

/-- flow.py lines 134-152, `register_model_if_passed`: when `passed` is
false, skip and return None; otherwise register the model (the registry
assigns `newVersion`) and unconditionally set the "development" alias on
that version, returning it.  The trace lists the registry calls in order. -/
def register_model_if_passed (passed : Bool) (newVersion : Nat) :
    Option Nat × List RegistryEvent :=
  if !passed then (none, [])
  else (some newVersion,
        [RegistryEvent.registerModel MODEL_NAME,
         RegistryEvent.setRegisteredModelAlias MODEL_NAME "development" newVersion])

/-- Environment of one pipeline run: whether `torch.load` raises on the
selected artifact (flow.py line 67), the outcome of the pytest launch, and
the version the registry would assign on registration. -/
structure PipelineEnv where
  loaderRaises : Bool
  launch : LaunchResult
  newVersion : Nat

/-- Externally visible side effects of one flow run: metrics logged by the
evaluator and registry calls made by the registrar. -/
structure FlowTrace where
  metricsLogged : List (String × Nat)
  registryEvents : List RegistryEvent
  deriving DecidableEq, Repr

/-- flow.py lines 154-160, `ml_pipeline_flow`: Selector → Loader →
Evaluator → Registrar in sequence.  A loader exception propagates uncaught
(`Except.error`), in which case neither the evaluator nor the registrar
runs and the trace is empty. -/
def ml_pipeline_flow (scenario : String) (env : PipelineEnv) :
    Except Unit (Option Nat) × FlowTrace :=
  let _model_path := select_model_path scenario
  if env.loaderRaises then
    (Except.error (), { metricsLogged := [], registryEvents := [] })
  else
    let ev := evaluate_model env.launch
    let reg := register_model_if_passed ev.all_tests_passed env.newVersion
    (Except.ok reg.1, { metricsLogged := ev.metrics, registryEvents := reg.2 })

/-- Lock-related events of one handler invocation, in order. -/
inductive TrigEvent
  | acquireLock
  | runPipeline (scenario : String)
  | releaseLock
  deriving DecidableEq, Repr

/-- HTTP response of the trigger endpoint. -/
inductive TriggerResponse
  | locked423
  | registered (version : Nat)
  | notRegistered
  | unhandledError
  deriving DecidableEq, Repr

/-- flow.py lines 162-173, `trigger_training`: with the lock held a request
raises HTTP 423 immediately and performs nothing; otherwise the handler
acquires the lock, runs the full flow while holding it, releases it (also
on an exception, via `async with`), and answers from the returned version. -/
def trigger_training (locked : Bool) (scenario : String) (env : PipelineEnv) :
    TriggerResponse × List TrigEvent :=
  if locked then (TriggerResponse.locked423, [])
  else
    let events := [TrigEvent.acquireLock, TrigEvent.runPipeline scenario,
                   TrigEvent.releaseLock]
    match (ml_pipeline_flow scenario env).1 with
    | Except.error _ => (TriggerResponse.unhandledError, events)
    | Except.ok (some v) => (TriggerResponse.registered v, events)
    | Except.ok none => (TriggerResponse.notRegistered, events)

/-- Shared server state: the asyncio lock and the number of pipeline
executions currently offloaded to the executor. -/
structure ServerState where
  locked : Bool
  inFlight : Nat
  deriving DecidableEq, Repr

/-- Atomic events of the cooperative event loop: a request handler starting
(it checks and, if free, acquires the lock without an intervening suspension
point), and an offloaded pipeline execution completing (which releases the
lock as the handler resumes). -/
inductive ServerAction
  | httpRequest (scenario : String)
  | pipelineComplete
  deriving DecidableEq, Repr

def INITIAL_SERVER_STATE : ServerState := { locked := false, inFlight := 0 }

/-- One step of the server: a request while locked is rejected with 423 and
changes nothing; a request while free acquires the lock and starts an
execution; a completion ends the execution and releases the lock. -/
def serverStep (st : ServerState) (a : ServerAction) : ServerState × Option Nat :=
  match a with
  | ServerAction.httpRequest _ =>
      if st.locked then (st, some 423)
      else ({ locked := true, inFlight := st.inFlight + 1 }, none)
  | ServerAction.pipelineComplete =>
      if st.inFlight = 0 then (st, none)
      else ({ locked := false, inFlight := st.inFlight - 1 }, none)

/-- Run a sequence of server events from a starting state. -/
def serverRun (acts : List ServerAction) (st : ServerState) : ServerState :=
  acts.foldl (fun s a => (serverStep s a).1) st

/-- Coupling invariant of the server: the lock is held exactly while one
pipeline execution is in flight. -/
def serverInv (st : ServerState) : Prop :=
  st.inFlight ≤ 1 ∧ (st.locked = true ↔ st.inFlight = 1)

end Flow

namespace CreateFailureModels

/-- create_failure_models.py line 23: the padding target, 210 MiB. -/
def TARGET_SIZE_BYTES : Nat := 210 * 1024 * 1024

/-- Observable outcome of `create_oversized_model`: the size of the written
artifact and whether the sub-200MB warning was printed. -/
structure OversizedOutcome where
  finalSize : Int
  warned : Bool
  deriving DecidableEq, Repr

/-- create_failure_models.py lines 62-114, `create_oversized_model`:
compute `padding_needed = TARGET_SIZE_BYTES - baseSize`, build a float32
padding tensor of `padding_needed // 4` elements (Python floor division;
`torch.randn` rejects a negative count, modelled as `Except.error`), and
save base model plus padding.  `overhead` models the serialization format's
deviation from the nominal byte count (object headers and the like; it may
be negative).  The final size is compared against 200 MB: below it the
script prints a warning and continues, it never fails on size. -/
def create_oversized_model (baseSize : Nat) (overhead : Int) :
    Except Unit OversizedOutcome :=
  let padding_needed : Int := (TARGET_SIZE_BYTES : Int) - (baseSize : Int)
  let num_elements : Int := Int.fdiv padding_needed 4
  if num_elements < 0 then Except.error ()
  else
    let finalSize : Int := (baseSize : Int) + 4 * num_elements + overhead
    Except.ok { finalSize := finalSize
                warned := decide (finalSize < 200 * 1024 * 1024) }

end CreateFailureModels

namespace Cli

/-- A file write performed by the entry point. -/
structure FileWrite where
  path : String
  content : String
  deriving DecidableEq, Repr

/-- Modelled from the spec: the fixed well-known output file path of the
`invoke pipeline` command-line entry point.  The entry point itself is part
of this repository but is not under src/ (src/train/flow.py only defines
the flow it calls), and the spec does not name the path, only that it is a
single fixed one; this constant stands for it. -/
def VERSION_OUTPUT_FILE : String := "/tmp/model_version.txt"

/-- Modelled from the spec: the `invoke pipeline [scenario]` command-line
entry point.  The scenario argument defaults to "normal"; the entry point
runs the pipeline flow and on completion writes the registered version, or
the empty string when no model was registered, to the fixed well-known
path; an unhandled flow exception propagates and nothing is written. -/
def cli_pipeline (scenarioArgs : List String) (env : Flow.PipelineEnv) :
    Except Unit FileWrite :=
  let scenario := scenarioArgs.headD "normal"
  match (Flow.ml_pipeline_flow scenario env).1 with
  | Except.error e => Except.error e
  | Except.ok (some v) =>
      Except.ok { path := VERSION_OUTPUT_FILE, content := toString v }
  | Except.ok none =>
      Except.ok { path := VERSION_OUTPUT_FILE, content := "" }

end Cli

namespace Flow

/-- Helper: a server step preserves the coupling invariant. -/
theorem serverStep_preserves_inv (st : ServerState) (a : ServerAction)
    (h : serverInv st) : serverInv (serverStep st a).1 := by
  obtain ⟨h1, h2⟩ := h
  cases a with
  | httpRequest s =>
      by_cases hl : st.locked = true
      · have hstep : (serverStep st (ServerAction.httpRequest s)).1 = st := by
          simp [serverStep, hl]
        rw [hstep]; exact ⟨h1, h2⟩
      · have hz : st.inFlight ≠ 1 := fun hf => hl (h2.mpr hf)
        have h0 : st.inFlight = 0 := by omega
        simp [serverStep, if_neg hl, serverInv, h0]
  | pipelineComplete =>
      by_cases hz : st.inFlight = 0
      · have hstep : (serverStep st ServerAction.pipelineComplete).1 = st := by
          simp [serverStep, hz]
        rw [hstep]; exact ⟨h1, h2⟩
      · have h1' : st.inFlight = 1 := by omega
        simp [serverStep, if_neg hz, serverInv, h1']

/-- Helper: the invariant holds after any event sequence from the initial
state. -/
theorem serverRun_inv (acts : List ServerAction) :
    serverInv (serverRun acts INITIAL_SERVER_STATE) := by
  have gen : ∀ (l : List ServerAction) (st : ServerState), serverInv st →
      serverInv (serverRun l st) := by
    intro l
    induction l with
    | nil => intro st h; exact h
    | cons a l ih =>
        intro st h
        exact ih _ (serverStep_preserves_inv st a h)
  exact gen acts INITIAL_SERVER_STATE (by simp [serverInv, INITIAL_SERVER_STATE])

end Flow

/-- C1: at most one pipeline execution is ever in flight; a request that
arrives while the lock is held is rejected immediately with HTTP 423 and
starts nothing; an accepted request acquires the lock, runs the full
Selector→Loader→Evaluator→Registrar chain while holding it, and releases
it only afterwards. -/
theorem trigger_lock_exclusion (acts : List Flow.ServerAction)
    (scenario : String) (env : Flow.PipelineEnv) (n : Nat) :
    (Flow.serverRun acts Flow.INITIAL_SERVER_STATE).inFlight ≤ 1 ∧
    Flow.serverStep { locked := true, inFlight := n }
        (Flow.ServerAction.httpRequest scenario) =
      ({ locked := true, inFlight := n }, some 423) ∧
    Flow.trigger_training true scenario env = (Flow.TriggerResponse.locked423, []) ∧
    (Flow.trigger_training false scenario env).2 =
      [Flow.TrigEvent.acquireLock, Flow.TrigEvent.runPipeline scenario,
       Flow.TrigEvent.releaseLock] := by
  refine ⟨(Flow.serverRun_inv acts).1, ?_, ?_, ?_⟩
  · simp [Flow.serverStep]
  · simp [Flow.trigger_training]
  · simp only [Flow.trigger_training, if_neg (by simp : ¬ (false = true))]
    cases h : (Flow.ml_pipeline_flow scenario env).1 with
    | error e => simp [h]
    | ok v => cases v <;> simp [h]

/-- C2: whenever the test subprocess launches, the boolean the evaluator
returns equals (exit code = 0), regardless of the content of the captured
output. -/
theorem evaluator_pass_iff_exit_zero (rc : Int) (stdout stderr : List Char) :
    (Flow.evaluate_model (Flow.LaunchResult.ok rc stdout stderr)).all_tests_passed = true
      ↔ rc = 0 := by
  simp [Flow.evaluate_model]

/-- C3 counterexample: the combined output "1 failed in 0.12s" carries the
first match of the `N failed` pattern with N = 1, yet the evaluator's
failed counter is 0, because extraction is gated on the substring "passed"
appearing in the output. -/
theorem evaluator_failed_counter_cex :
    Flow.searchNumThen (" failed".data) ("1 failed in 0.12s".data) = some 1 ∧
    Flow.metricValue
      (Flow.evaluate_model
        (Flow.LaunchResult.ok 1 ("1 failed in 0.12s".data) []))
      "tests_failed" = 0 := by
  constructor <;> decide

/-- C3 amended: both counters are extracted only when the combined output
contains the substring "passed"; in that case the passed counter is the
number of the first `N passed` match (0 when absent) and the failed counter
is the number of the first `N failed` match (0 when absent); when "passed"
is absent both counters are zero even if a `N failed` pattern occurs. -/
theorem evaluator_counters_amended (rc : Int) (stdout stderr : List Char) :
    Flow.metricValue (Flow.evaluate_model (Flow.LaunchResult.ok rc stdout stderr))
        "tests_passed" =
      (if Flow.containsSub ("passed".data) (stdout ++ stderr) then
        (Flow.searchNumThen (" passed".data) (stdout ++ stderr)).getD 0
      else 0) ∧
    Flow.metricValue (Flow.evaluate_model (Flow.LaunchResult.ok rc stdout stderr))
        "tests_failed" =
      (if Flow.containsSub ("passed".data) (stdout ++ stderr) then
        (Flow.searchNumThen (" failed".data) (stdout ++ stderr)).getD 0
      else 0) := by
  by_cases h : Flow.containsSub ("passed".data) (stdout ++ stderr) = true
  · simp [Flow.evaluate_model, Flow.metricValue, List.lookup, h]
  · simp [Flow.evaluate_model, Flow.metricValue, List.lookup, h]

/-- C4: the registrar is a no-op returning no version on a failing outcome,
and on a passing outcome it registers the model under the fixed name
exactly once, then assigns the alias "development" to the new version
exactly once, returning that version. -/
theorem registrar_branching (v : Nat) :
    Flow.register_model_if_passed false v = (none, []) ∧
    Flow.register_model_if_passed true v =
      (some v,
       [Flow.RegistryEvent.registerModel Flow.MODEL_NAME,
        Flow.RegistryEvent.setRegisteredModelAlias Flow.MODEL_NAME "development" v]) :=
  ⟨rfl, rfl⟩

/-- C5: the selector maps the three known scenarios to their fixed paths,
and any other scenario to the "normal" path with the unknown-scenario
warning logged and no error raised. -/
theorem selector_mapping (s : String)
    (h : s ≠ "normal" ∧ s ≠ "bad-architecture" ∧ s ≠ "oversized") :
    Flow.select_model_path "normal" = ("food11.pth", false) ∧
    Flow.select_model_path "bad-architecture" = ("bad_model.pth", false) ∧
    Flow.select_model_path "oversized" = ("oversized_model.pth", false) ∧
    Flow.select_model_path s = ("food11.pth", true) := by
  obtain ⟨h1, h2, h3⟩ := h
  refine ⟨rfl, rfl, rfl, ?_⟩
  have hb1 : (s == "normal") = false := beq_eq_false_iff_ne.mpr h1
  have hb2 : (s == "bad-architecture") = false := beq_eq_false_iff_ne.mpr h2
  have hb3 : (s == "oversized") = false := beq_eq_false_iff_ne.mpr h3
  simp [Flow.select_model_path, Flow.scenario_to_model, List.lookup, hb1, hb2, hb3]

/-- Witness for C5 at the concrete unknown scenario "weird". -/
theorem selector_mapping_witness :
    Flow.select_model_path "normal" = ("food11.pth", false) ∧
    Flow.select_model_path "bad-architecture" = ("bad_model.pth", false) ∧
    Flow.select_model_path "oversized" = ("oversized_model.pth", false) ∧
    Flow.select_model_path "weird" = ("food11.pth", true) :=
  selector_mapping "weird" ⟨by decide, by decide, by decide⟩

/-- C6: a launch exception in the evaluator is caught, all three metrics
are logged as zero, and the evaluator returns overall failure. -/
theorem evaluator_launch_exception :
    Flow.evaluate_model Flow.LaunchResult.raised =
      { all_tests_passed := false,
        metrics := [("tests_passed", 0), ("tests_failed", 0), ("tests_total", 0)] } :=
  rfl

/-- C7: if deserialization raises in the loader, the exception propagates
uncaught out of the flow, and neither the evaluator nor the registrar runs:
no metrics are logged and no registry call is made. -/
theorem loader_failure_aborts (scenario : String) (env : Flow.PipelineEnv)
    (h : env.loaderRaises = true) :
    Flow.ml_pipeline_flow scenario env =
      (Except.error (), { metricsLogged := [], registryEvents := [] }) := by
  simp [Flow.ml_pipeline_flow, h]

/-- Witness for C7 at the bad-architecture scenario with a raising loader. -/
theorem loader_failure_aborts_witness :
    Flow.ml_pipeline_flow "bad-architecture"
      { loaderRaises := true, launch := Flow.LaunchResult.raised, newVersion := 1 } =
      (Except.error (), { metricsLogged := [], registryEvents := [] }) :=
  loader_failure_aborts "bad-architecture"
    { loaderRaises := true, launch := Flow.LaunchResult.raised, newVersion := 1 } rfl

/-- Helper: the leading digit run of a digit string followed by a non-digit
is the digit string itself. -/
theorem leadingDigits_append_of_not_digit (ds : List Char) (c : Char) (rest : List Char)
    (hds : ∀ x ∈ ds, x.isDigit = true) (hc : c.isDigit = false) :
    Flow.leadingDigits (ds ++ c :: rest) = ds := by
  induction ds with
  | nil => simp [Flow.leadingDigits, hc]
  | cons d ds' ih =>
      have hd : d.isDigit = true := hds d (by simp)
      simp only [List.cons_append, Flow.leadingDigits, hd, if_pos]
      exact congrArg (d :: ·) (ih (fun x hx => hds x (by simp [hx])))

/-- Helper: on a text that begins with a nonempty digit run immediately
followed by the (non-digit-initial) pattern tail, the scan returns exactly
that run's value — the model really reads the first `N <tail>` match. -/
theorem searchNumThen_finds_first_match (ds rest cs : List Char) (c : Char)
    (hne : ds ≠ []) (hds : ∀ x ∈ ds, x.isDigit = true) (hc : c.isDigit = false) :
    Flow.searchNumThen (c :: cs) (ds ++ (c :: cs) ++ rest) =
      some (Flow.digitsToNat ds) := by
  cases ds with
  | nil => exact absurd rfl hne
  | cons d ds' =>
      have hlead : Flow.leadingDigits ((d :: ds') ++ (c :: cs) ++ rest) = d :: ds' := by
        rw [List.append_assoc]
        exact leadingDigits_append_of_not_digit (d :: ds') c (cs ++ rest) hds hc
      have hdrop : ((d :: ds') ++ (c :: cs) ++ rest).drop (d :: ds').length =
          (c :: cs) ++ rest := by
        rw [List.append_assoc]
        exact List.drop_left (d :: ds') ((c :: cs) ++ rest)
      show Flow.searchNumThen (c :: cs) (d :: (ds' ++ (c :: cs) ++ rest)) = _
      unfold Flow.searchNumThen
      have hlead' : Flow.leadingDigits (d :: (ds' ++ (c :: cs) ++ rest)) = d :: ds' := by
        simp only [List.cons_append] at hlead
        exact hlead
      have hdrop' : (d :: (ds' ++ (c :: cs) ++ rest)).drop (d :: ds').length =
          (c :: cs) ++ rest := by
        simp only [List.cons_append] at hdrop
        exact hdrop
      rw [hlead']
      simp only [hdrop', List.isEmpty_cons, Bool.not_false, Bool.true_and]
      rw [if_pos]
      exact (List.isPrefixOf_iff_prefix.mpr (List.prefix_append (c :: cs) rest))

/-- C8: the command-line entry point defaults the scenario to "normal" and,
on completion of the flow, writes the registered version — or the empty
string when no model was registered — to the fixed well-known output path. -/
theorem cli_writes_version (env : Flow.PipelineEnv) (args : List String)
    (w : Cli.FileWrite) (h : Cli.cli_pipeline args env = Except.ok w) :
    Cli.cli_pipeline [] env = Cli.cli_pipeline ["normal"] env ∧
    w.path = Cli.VERSION_OUTPUT_FILE ∧
    w.content = (match (Flow.ml_pipeline_flow (args.headD "normal") env).1 with
                 | Except.ok (some v) => toString v
                 | _ => "") := by
  refine ⟨rfl, ?_⟩
  simp only [Cli.cli_pipeline] at h
  cases hr : (Flow.ml_pipeline_flow (args.headD "normal") env).1 with
  | error e =>
      rw [hr] at h
      cases h
  | ok v =>
      cases v with
      | none =>
          rw [hr] at h
          injection h with h2
          subst h2
          exact ⟨rfl, rfl⟩
      | some n =>
          rw [hr] at h
          injection h with h2
          subst h2
          exact ⟨rfl, rfl⟩

/-- Witness for C8: a run whose suite exits 0 with output "5 passed in
0.2s" registers version 7 and the entry point writes "7". -/
theorem cli_writes_version_witness :
    Cli.cli_pipeline []
        { loaderRaises := false,
          launch := Flow.LaunchResult.ok 0 ("5 passed in 0.2s".data) [],
          newVersion := 7 } =
      Cli.cli_pipeline ["normal"]
        { loaderRaises := false,
          launch := Flow.LaunchResult.ok 0 ("5 passed in 0.2s".data) [],
          newVersion := 7 } ∧
    ({ path := Cli.VERSION_OUTPUT_FILE, content := "7" } : Cli.FileWrite).path =
      Cli.VERSION_OUTPUT_FILE ∧
    ({ path := Cli.VERSION_OUTPUT_FILE, content := "7" } : Cli.FileWrite).content =
      (match (Flow.ml_pipeline_flow (([] : List String).headD "normal")
          { loaderRaises := false,
            launch := Flow.LaunchResult.ok 0 ("5 passed in 0.2s".data) [],
            newVersion := 7 }).1 with
       | Except.ok (some v) => toString v
       | _ => "") :=
  cli_writes_version
    { loaderRaises := false,
      launch := Flow.LaunchResult.ok 0 ("5 passed in 0.2s".data) [],
      newVersion := 7 }
    [] { path := Cli.VERSION_OUTPUT_FILE, content := "7" } (by rfl)

/-- C9: from a base artifact no larger than the 210 MiB target, the padding
arithmetic yields an artifact of at least 200 MiB whenever the
serialization overhead is nonnegative, and should the written size
nevertheless fall below 200 MB the script warns and continues rather than
failing. -/
theorem oversized_generator (baseSize : Nat) (overhead : Int)
    (hbase : baseSize ≤ CreateFailureModels.TARGET_SIZE_BYTES) :
    ∃ r, CreateFailureModels.create_oversized_model baseSize overhead = Except.ok r ∧
      (0 ≤ overhead → (200 * 1024 * 1024 : Int) ≤ r.finalSize) ∧
      (r.finalSize < 200 * 1024 * 1024 → r.warned = true) := by
  have hb' : (baseSize : Int) ≤ ((210 * 1024 * 1024 : Nat) : Int) := by
    exact_mod_cast hbase
  have hfd : Int.fdiv (((210 * 1024 * 1024 : Nat) : Int) - (baseSize : Int)) 4 =
      (((210 * 1024 * 1024 : Nat) : Int) - (baseSize : Int)) / 4 :=
    Int.fdiv_eq_ediv _ (by norm_num)
  simp only [CreateFailureModels.create_oversized_model,
    CreateFailureModels.TARGET_SIZE_BYTES, hfd]
  rw [if_neg (by push_cast; omega :
    ¬ ((((210 * 1024 * 1024 : Nat) : Int) - (baseSize : Int)) / 4 < 0))]
  refine ⟨_, rfl, ?_, ?_⟩
  · intro hov
    show (200 * 1024 * 1024 : Int) ≤
      (baseSize : Int) + 4 * ((((210 * 1024 * 1024 : Nat) : Int) - (baseSize : Int)) / 4) + overhead
    push_cast
    omega
  · intro hlt
    exact decide_eq_true hlt

/-- Witness for C9 at a 4 MiB base artifact and zero overhead. -/
theorem oversized_generator_witness :
    ∃ r, CreateFailureModels.create_oversized_model 4194304 0 = Except.ok r ∧
      (0 ≤ (0 : Int) → (200 * 1024 * 1024 : Int) ≤ r.finalSize) ∧
      (r.finalSize < 200 * 1024 * 1024 → r.warned = true) :=
  oversized_generator 4194304 0 (by decide)

/-- C10: on every returning path of the evaluator exactly three metrics are
logged, and the logged total always equals passed plus failed — also when
the parser patterns mismatch. -/
theorem evaluator_metrics_reconcile (r : Flow.LaunchResult) :
    ∃ p f, (Flow.evaluate_model r).metrics =
      [("tests_passed", p), ("tests_failed", f), ("tests_total", p + f)] := by
  cases r with
  | raised => exact ⟨0, 0, rfl⟩
  | ok rc stdout stderr =>
      by_cases h : Flow.containsSub ("passed".data) (stdout ++ stderr) = true
      · exact ⟨(Flow.searchNumThen (" passed".data) (stdout ++ stderr)).getD 0,
               (Flow.searchNumThen (" failed".data) (stdout ++ stderr)).getD 0,
               by simp [Flow.evaluate_model, h]⟩
      · exact ⟨0, 0, by simp [Flow.evaluate_model, h]⟩
